import Mathlib

set_option maxHeartbeats 1000000

/-!
Shallow embedding of the `network_generators` repository: the rule engine and
session protocol (`services/rules.py`), the built-in normalization and
fleet-validation rules (`rules/__init__.py`), and the token resolver
(`generators/data.py`).  Python dicts are modelled as insertion-ordered
association lists, mutation as explicit state passing, and raised exceptions
as `Except` results.
-/

/-- A JSON-like Python value as stored in a device mapping. -/
inductive Value : Type where
  | null : Value
  | bool : Bool → Value
  | int : Int → Value
  | str : String → Value
  | list : List Value → Value
  | dict : List (String × Value) → Value

/-- Python `dict.get` on an insertion-ordered association list (first match). -/
def getVal (entries : List (String × Value)) (key : String) : Option Value :=
  match entries with
  | [] => none
  | (k, v) :: rest => if k = key then some v else getVal rest key

/-- Python `dict[key] = value`: replace in place, preserving insertion order,
or append a new key at the end. -/
def setVal (entries : List (String × Value)) (key : String) (v : Value) :
    List (String × Value) :=
  match entries with
  | [] => [(key, v)]
  | (k, v') :: rest =>
      if k = key then (key, v) :: rest else (k, v') :: setVal rest key v

/-- Python truthiness: `None`, `False`, `0`, the empty string, the empty list
and the empty dict are falsy. -/
def Value.falsy : Value → Bool
  | .null => true
  | .bool b => !b
  | .int n => n == 0
  | .str s => s == ""
  | .list items => items.isEmpty
  | .dict entries => entries.isEmpty

mutual
/-- Python `repr` of a JSON-like value (escaping inside string quoting is not
modelled; the repository only formats quote-free scalars through it). -/
def pyRepr : Value → String
  | .null => "None"
  | .bool b => if b then "True" else "False"
  | .int n => toString n
  | .str s => "\x27" ++ s ++ "\x27"
  | .list items => "[" ++ pyReprList items ++ "]"
  | .dict entries => "\x7b" ++ pyReprDict entries ++ "\x7d"

/-- Comma-separated reprs of the elements of a Python list. -/
def pyReprList : List Value → String
  | [] => ""
  | [v] => pyRepr v
  | v :: rest => pyRepr v ++ ", " ++ pyReprList rest

/-- Comma-separated `key: value` reprs of the entries of a Python dict. -/
def pyReprDict : List (String × Value) → String
  | [] => ""
  | [(k, v)] => "\x27" ++ k ++ "\x27: " ++ pyRepr v
  | (k, v) :: rest => "\x27" ++ k ++ "\x27: " ++ pyRepr v ++ ", " ++ pyReprDict rest
end

/-- Python `str()` conversion, as applied by `str(raw)` before parsing. -/
def pyStr : Value → String
  | .str s => s
  | v => pyRepr v

/-- Python single-quoted `repr` of a string (escaping not modelled; the
repository formats quote-free values here). -/
def pyQuote (s : String) : String := "\x27" ++ s ++ "\x27"

/-- Python `sep.join(items)`. -/
def joinWith (sep : String) : List String → String
  | [] => ""
  | [x] => x
  | x :: rest => x ++ sep ++ joinWith sep rest

/-- Python single-character `str.split`: split at every separator
occurrence, keeping empty segments. -/
def splitChar (sep : Char) : List Char → List (List Char)
  | [] => [[]]
  | c :: rest =>
      let groups := splitChar sep rest
      if c = sep then [] :: groups
      else
        match groups with
        | g :: gs => (c :: g) :: gs
        | [] => [[c]]

/-- Python `s.split(sep)` for a single-character separator. -/
def pySplit (s : String) (sep : Char) : List String :=
  (splitChar sep s.toList).map List.asString

/-- Python `str.strip()` for ASCII whitespace. -/
def pyStrip (s : String) : String :=
  (((s.toList.dropWhile Char.isWhitespace).reverse.dropWhile
      Char.isWhitespace).reverse).asString

/-- Index of the last occurrence of a character in a list, if any. -/
def lastIndexOfChar (cs : List Char) (c : Char) : Option Nat :=
  match cs with
  | [] => none
  | x :: rest =>
      match lastIndexOfChar rest c with
      | some i => some (i + 1)
      | none => if x = c then some 0 else none

/-- `pathlib.Path.stem`: the final path component without its suffix. -/
def pathStem (p : String) : String :=
  let name := (pySplit p '/').getLastD p
  let cs := name.toList
  match lastIndexOfChar cs '.' with
  | some i => if 0 < i ∧ i < cs.length - 1 then (cs.take i).asString else name
  | none => name

/-- Decimal value of a list of ASCII digits. -/
def decimalValue (cs : List Char) : Nat :=
  cs.foldl (fun acc c => acc * 10 + (c.toNat - 48)) 0

/-- `ipaddress._parse_octet`: ASCII digits only, at most three characters, no
leading zero, value at most 255. -/
def parseOctet (s : String) : Option Nat :=
  let cs := s.toList
  if cs.isEmpty then none
  else if !cs.all Char.isDigit then none
  else if 3 < cs.length then none
  else if 1 < cs.length && (cs.headD ' ' == '0') then none
  else
    let n := decimalValue cs
    if 255 < n then none else some n

/-- `ipaddress` IPv4 address parsing: exactly four dot-separated octets. -/
def parseIPv4Addr (s : String) : Option (Nat × Nat × Nat × Nat) :=
  match (pySplit s '.').map parseOctet with
  | [some a, some b, some c, some d] => some (a, b, c, d)
  | _ => none

/-- `ipaddress` interface notation: one optional '/' separating the address
from the prefix text. -/
def splitAddrMask (s : String) : Option (String × Option String) :=
  match pySplit s '/' with
  | [a] => some (a, none)
  | [a, m] => some (a, some m)
  | _ => none

/-- `ipaddress._prefix_from_prefix_string`: decimal digits, value at most
`maxLen` (dotted netmask and hostmask notation is outside the inputs this
development exercises). -/
def parsePrefixLen (s : String) (maxLen : Nat) : Option Nat :=
  let cs := s.toList
  if cs.isEmpty then none
  else if !cs.all Char.isDigit then none
  else
    let n := decimalValue cs
    if maxLen < n then none else some n

/-- `ipaddress` IPv4Interface parsing: dotted-quad address with an optional
decimal prefix length, defaulting to 32. -/
def parseIPv4Interface (s : String) : Option (Nat × Nat × Nat × Nat × Nat) :=
  match splitAddrMask s with
  | none => none
  | some (addr, maskOpt) =>
      match parseIPv4Addr addr with
      | none => none
      | some (a, b, c, d) =>
          match maskOpt with
          | none => some (a, b, c, d, 32)
          | some m =>
              match parsePrefixLen m 32 with
              | none => none
              | some p => some (a, b, c, d, p)

/-- ASCII hexadecimal digit. -/
def isHexDigitChar (c : Char) : Bool :=
  c.isDigit || ('a' ≤ c && c ≤ 'f') || ('A' ≤ c && c ≤ 'F')

/-- An IPv6 hextet: one to four hexadecimal digits. -/
def isHextet (s : String) : Bool :=
  let cs := s.toList
  !cs.isEmpty && cs.length ≤ 4 && cs.all isHexDigitChar

/-- `ipaddress` IPv6 address recognition, following
`IPv6Address._ip_int_from_string`: colon-separated hextets with at most one
`::` abbreviation (the embedded-IPv4 tail form is outside the inputs this
development exercises). -/
def isIPv6Addr (s : String) : Bool :=
  let parts := pySplit s ':' 
  let n := parts.length
  if n < 3 || 9 < n then false
  else
    match (List.range n).filter
        (fun i => decide (0 < i) && decide (i < n - 1) && (parts.getD i "x" == "")) with
    | [] => n == 8 && parts.all isHextet
    | [skipIdx] =>
        let headEmpty := parts.getD 0 "x" == ""
        let lastEmpty := parts.getD (n - 1) "x" == ""
        let hi := if headEmpty then skipIdx - 1 else skipIdx
        let lo := if lastEmpty then n - skipIdx - 2 else n - skipIdx - 1
        (!headEmpty || skipIdx == 1) &&
        (!lastEmpty || skipIdx == n - 2) &&
        decide (hi + lo ≤ 7) &&
        (parts.take hi).all isHextet &&
        (parts.drop (n - lo)).all isHextet
    | _ => false

/-- `ipaddress` IPv6Interface recognition: IPv6 address with an optional
decimal prefix length at most 128. -/
def isIPv6Interface (s : String) : Bool :=
  match splitAddrMask s with
  | none => false
  | some (addr, maskOpt) =>
      isIPv6Addr addr &&
      (match maskOpt with
       | none => true
       | some m => (parsePrefixLen m 128).isSome)

/-- Result of `ipaddress.ip_interface`: an IPv4 interface keeps its four
octets and prefix length; the claims only observe the version of an IPv6
result. -/
inductive ParsedInterface : Type where
  | v4 : Nat → Nat → Nat → Nat → Nat → ParsedInterface
  | v6 : ParsedInterface
deriving DecidableEq

/-- `ipaddress.ip_interface`: try IPv4Interface, then IPv6Interface, otherwise
fail with the fixed ValueError message used by the standard library. -/
def ip_interface (s : String) : Except String ParsedInterface :=
  match parseIPv4Interface s with
  | some (a, b, c, d, p) => .ok (.v4 a b c d p)
  | none =>
      if isIPv6Interface s then .ok .v6
      else .error (pyQuote s ++ " does not appear to be an IPv4 or IPv6 interface")

/-- `IPv4Address.exploded`: canonical dotted-quad text of the address. -/
def ipv4Exploded (a b c d : Nat) : String :=
  toString a ++ "." ++ toString b ++ "." ++ toString c ++ "." ++ toString d

/-- A device is a Python dict: an insertion-ordered association list from
field names to values, mutated in place by rules (modelled by state passing). -/
abbrev Device := List (String × Value)

/-- `services/rules.py` RuleContext.  The optional `record_issue` field models
the `_record_issue` sink (default `None`): a function from the reported
message and the issues recorded so far to the new issue sequence. -/
structure RuleContext where
  device : Device
  site : String
  source_path : String
  record_issue : Option (String → List String → List String) := none

/-- RuleContext.hostname: the device's `hostname` field when it is a string,
otherwise the empty string. -/
def RuleContext.hostname (ctx : RuleContext) : String :=
  match getVal ctx.device "hostname" with
  | some (.str s) => s
  | _ => ""

/-- RuleContext.report_issue: a RuntimeError when no sink is bound, otherwise
the issue sequence extended through the sink. -/
def RuleContext.report_issue (ctx : RuleContext) (message : String)
    (issues : List String) : Except String (List String) :=
  match ctx.record_issue with
  | none => .error "Issue reporting is not enabled for this context"
  | some f => .ok (f message issues)

/-- A device rule: receives its context and yields the device after its
in-place mutations together with the messages it reported, in order. -/
abbrev Rule := RuleContext → Device × List String

/-- `services/rules.py` DeviceRecord: the snapshot taken after all device
rules ran for one device. -/
structure DeviceRecord where
  device : Device
  site : String
  source_path : String
  display_path : String

/-- DeviceRecord.hostname: the device's `hostname` field when it is a
non-empty string, otherwise the stem of the source path. -/
def DeviceRecord.hostname (r : DeviceRecord) : String :=
  match getVal r.device "hostname" with
  | some (.str s) => if s = "" then pathStem r.source_path else s
  | _ => pathStem r.source_path

/-- `services/rules.py` FleetContext: the ordered snapshots handed to fleet
rules (the issue sink is modelled by the fleet rule's return value). -/
structure FleetContext where
  devices : List DeviceRecord

/-- A fleet rule: receives the fleet context and yields the messages it
reported through the context, in order. -/
abbrev FleetRule := FleetContext → List String

/-- `services/rules.py` RuleViolationError: carries the recorded issues. -/
structure RuleViolationError where
  issues : List String

/-- The display message of a RuleViolationError: the issues joined with a
blank line, as built in `RuleViolationError.__init__`. -/
def RuleViolationError.message (e : RuleViolationError) : String :=
  joinWith "\n\n" e.issues

/-- `rules/__init__.py` assign_site_domains: set Juniper device domains to
include the site slug. -/
def assign_site_domains : Rule := fun context =>
  let device := context.device
  match getVal device "vendor" with
  | some (.str vendor) =>
      if vendor = "juniper" then
        let desired := context.site ++ ".example.com"
        match getVal device "domain" with
        | some (.str current) =>
            if current ≠ desired then (setVal device "domain" (.str desired), [])
            else (device, [])
        | _ => (device, [])
      else (device, [])
  | _ => (device, [])

/-- `rules/__init__.py` suppress_matches_for_wgw01: clear `matches` for the
NYC01 primary WAN gateway. -/
def suppress_matches_for_wgw01 : Rule := fun context =>
  if context.hostname = "wgw01.nyc01" then
    (setVal context.device "matches" (.list []), [])
  else (context.device, [])

/-- Outcome of inspecting one interface entry inside
`ensure_unique_ipv4_allocations`: skipped, an error line appended to
`errors`, or a `(canonical address, source text)` assignment. -/
inductive IfaceOutcome : Type where
  | skip : IfaceOutcome
  | err : String → IfaceOutcome
  | assign : String → String → IfaceOutcome

/-- The `ipv4` value of an interface mapping; Python `iface_data.get("ipv4")`
yields None when absent. -/
def rawAddressOf (iface_entries : List (String × Value)) : Value :=
  (getVal iface_entries "ipv4").getD .null

/-- The inner loop body of `ensure_unique_ipv4_allocations` for one interface
entry of one record. -/
def classifyInterface (record : DeviceRecord) (iface_name : String)
    (iface_data : Value) : IfaceOutcome :=
  match iface_data with
  | .dict entries =>
      if (rawAddressOf entries).falsy then .skip
      else
        match ip_interface (pyStr (rawAddressOf entries)) with
        | .error exc =>
            .err (record.display_path ++ ": interface " ++ iface_name ++
              " has invalid IPv4 " ++ pyQuote (pyStr (rawAddressOf entries)) ++
              ": " ++ exc)
        | .ok .v6 =>
            .err (record.display_path ++ ": interface " ++ iface_name ++
              " has non-IPv4 address " ++ pyQuote (pyStr (rawAddressOf entries)))
        | .ok (.v4 a b c d p) =>
            .assign (ipv4Exploded a b c d)
              (record.display_path ++ "::" ++ iface_name ++ " (" ++
                record.hostname ++ ", " ++ ipv4Exploded a b c d ++ "/" ++
                toString p ++ ")")
  | _ => .skip

/-- `defaultdict(list)` append: extend an existing group in place or append a
new key at the end, preserving insertion order. -/
def addAssign (m : List (String × List String)) (key source : String) :
    List (String × List String) :=
  match m with
  | [] => [(key, [source])]
  | (k, vs) :: rest =>
      if k = key then (k, vs ++ [source]) :: rest
      else (k, vs) :: addAssign rest key source

/-- The outer loop body of `ensure_unique_ipv4_allocations` for one record:
thread the errors list and the assignments mapping through every interface of
a dict-shaped `interfaces` field, skipping other shapes. -/
def scanStep (acc : List String × List (String × List String))
    (record : DeviceRecord) : List String × List (String × List String) :=
  match getVal record.device "interfaces" with
  | some (.dict interfaces) =>
      interfaces.foldl (fun acc p =>
        match classifyInterface record p.1 p.2 with
        | .skip => acc
        | .err line => (acc.1 ++ [line], acc.2)
        | .assign key source => (acc.1, addAssign acc.2 key source)) acc
  | _ => acc

/-- The full scan of `ensure_unique_ipv4_allocations`: errors and assignments
accumulated over the fleet in order. -/
def fleetScan (records : List DeviceRecord) :
    List String × List (String × List String) :=
  records.foldl scanStep ([], [])

/-- Stable insertion into a list sorted by key; models Python `sorted` on the
duplicate items (tuple comparison never passes the key: dict keys are
unique). -/
def insertByKey (p : String × List String) :
    List (String × List String) → List (String × List String)
  | [] => [p]
  | q :: rest => if p.1 ≤ q.1 then p :: q :: rest else q :: insertByKey p rest

/-- Sort the duplicate groups by canonical address. -/
def sortByKey (l : List (String × List String)) : List (String × List String) :=
  l.foldr insertByKey []

/-- The aggregated duplicate-allocation issue text built by
`ensure_unique_ipv4_allocations`. -/
def duplicatesMessage (duplicates : List (String × List String)) : String :=
  joinWith "\n"
    ("Duplicate IPv4 addresses detected:" ::
      (sortByKey duplicates).flatMap
        (fun p => ("  " ++ p.1) :: p.2.map (fun entry => "    " ++ entry)))

/-- `rules/__init__.py` ensure_unique_ipv4_allocations: detect duplicate IPv4
assignments or malformed addresses, reporting at most two issues: one joining
every malformed-address line, one listing every duplicate group. -/
def ensure_unique_ipv4_allocations : FleetRule := fun context =>
  let scanned := fleetScan context.devices
  let errors := scanned.1
  let assignments := scanned.2
  let errorIssues :=
    if errors.isEmpty then [] else [joinWith "\n" errors]
  let duplicates := assignments.filter (fun p => 1 < p.2.length)
  let duplicateIssues :=
    if duplicates.isEmpty then [] else [duplicatesMessage duplicates]
  errorIssues ++ duplicateIssues

/-- `services/rules.py` RuleEngineSession state: the fixed rule set plus the
accumulated issues and device records. -/
structure RuleEngineSession where
  rules : List Rule
  fleet_rules : List FleetRule
  issues : List String := []
  devices : List DeviceRecord := []

/-- RuleEngineSession.apply: a no-op for an entirely empty rule set;
otherwise run every device rule in registration order on the shared device,
accumulating reported issues, then append the snapshot. -/
def RuleEngineSession.apply (s : RuleEngineSession) (device : Device)
    (site : String) (source_path : String)
    (display_path : Option String := none) : RuleEngineSession :=
  if s.rules.isEmpty && s.fleet_rules.isEmpty then s
  else
    let display :=
      match display_path with
      | some d => if d = "" then source_path else d
      | none => source_path
    let result := s.rules.foldl (fun acc r =>
      let out := r { device := acc.1, site := site, source_path := source_path,
                     record_issue := some (fun m issues => issues ++ [m]) }
      (out.1, acc.2 ++ out.2)) (device, s.issues)
    { s with
      issues := result.2,
      devices := s.devices ++
        [{ device := result.1, site := site, source_path := source_path,
           display_path := display }] }

/-- The issue sequence after fleet rules have run: mirrors the state of
`self._issues` at the final check inside RuleEngineSession.finalize. -/
def RuleEngineSession.finalIssues (s : RuleEngineSession) : List String :=
  if s.fleet_rules.isEmpty then s.issues
  else s.fleet_rules.foldl (fun acc fr => acc ++ fr { devices := s.devices }) s.issues

/-- RuleEngineSession.finalize: a no-op without fleet rules and without
issues; otherwise run every fleet rule over the accumulated records and raise
a RuleViolationError when any issues were recorded. -/
def RuleEngineSession.finalize (s : RuleEngineSession) :
    Except RuleViolationError Unit :=
  if s.fleet_rules.isEmpty && s.issues.isEmpty then .ok ()
  else
    let issues := s.finalIssues
    if issues.isEmpty then .ok () else .error { issues := issues }

/-- A rule candidate handed to engine construction or discovery: an invocable
value, or a non-callable value carrying its Python repr text. -/
inductive Candidate (α : Type) : Type where
  | callable : α → Candidate α
  | notCallable : String → Candidate α

/-- Python `callable(candidate)`. -/
def Candidate.isCallable {α : Type} : Candidate α → Bool
  | .callable _ => true
  | .notCallable _ => false

/-- `INVALID_RULE_MESSAGE` with the candidate repr substituted. -/
def INVALID_RULE_MESSAGE (candidateRepr : String) : String :=
  "Rule " ++ candidateRepr ++ " is not callable"

/-- `INVALID_FLEET_RULE_MESSAGE` with the candidate repr substituted. -/
def INVALID_FLEET_RULE_MESSAGE (candidateRepr : String) : String :=
  "Fleet rule " ++ candidateRepr ++ " is not callable"

/-- `_ensure_rule`: TypeError for a non-callable candidate. -/
def ensure_rule : Candidate Rule → Except String Rule
  | .callable f => .ok f
  | .notCallable r => .error (INVALID_RULE_MESSAGE r)

/-- `_ensure_fleet_rule`: TypeError for a non-callable candidate. -/
def ensure_fleet_rule : Candidate FleetRule → Except String FleetRule
  | .callable f => .ok f
  | .notCallable r => .error (INVALID_FLEET_RULE_MESSAGE r)

/-- `_validate_rules`: validate left to right, failing at the first
non-callable entry. -/
def validate_rules : List (Candidate Rule) → Except String (List Rule)
  | [] => .ok []
  | c :: rest => do
      let r ← ensure_rule c
      let rs ← validate_rules rest
      pure (r :: rs)

/-- `_validate_fleet_rules`: validate left to right, failing at the first
non-callable entry. -/
def validate_fleet_rules :
    List (Candidate FleetRule) → Except String (List FleetRule)
  | [] => .ok []
  | c :: rest => do
      let r ← ensure_fleet_rule c
      let rs ← validate_fleet_rules rest
      pure (r :: rs)

/-- The attributes of a rules module inspected by discovery.  An explicit
collection attribute is `some` when present (Python `is not None`); the
factory fields are `some` of the returned collection when the module exposes
a callable attribute of that name; the decorated fields hold the module
members carrying the marker attribute, in definition order. -/
structure RulesModule where
  DATA_RULES : Option (List (Candidate Rule)) := none
  RULES : Option (List (Candidate Rule)) := none
  get_rules : Option (List (Candidate Rule)) := none
  rules_attr : Option (List (Candidate Rule)) := none
  decorated_rules : List (Candidate Rule) := []
  FLEET_RULES : Option (List (Candidate FleetRule)) := none
  get_fleet_rules : Option (List (Candidate FleetRule)) := none
  fleet_rules_attr : Option (List (Candidate FleetRule)) := none
  decorated_fleet_rules : List (Candidate FleetRule) := []

/-- `_discover_device_rules`: explicit collections first (DATA_RULES then
RULES), then callable factories (get_rules then rules), then decorated
members; the first present tier wins. -/
def discover_device_rules (m : RulesModule) : Except String (List Rule) :=
  match m.DATA_RULES with
  | some payload => validate_rules payload
  | none =>
    match m.RULES with
    | some payload => validate_rules payload
    | none =>
      match m.get_rules with
      | some payload => validate_rules payload
      | none =>
        match m.rules_attr with
        | some payload => validate_rules payload
        | none => validate_rules m.decorated_rules

/-- `_discover_fleet_rules`: FLEET_RULES, then get_fleet_rules, then
fleet_rules, then decorated members. -/
def discover_fleet_rules (m : RulesModule) : Except String (List FleetRule) :=
  match m.FLEET_RULES with
  | some payload => validate_fleet_rules payload
  | none =>
    match m.get_fleet_rules with
    | some payload => validate_fleet_rules payload
    | none =>
      match m.fleet_rules_attr with
      | some payload => validate_fleet_rules payload
      | none => validate_fleet_rules m.decorated_fleet_rules

/-- `_load_from_module`: an absent module yields empty rule sets; a discovery
failure propagates and aborts engine construction. -/
def load_from_module (m : Option RulesModule) :
    Except String (List Rule × List FleetRule) :=
  match m with
  | none => .ok ([], [])
  | some m => do
      let device_rules ← discover_device_rules m
      let fleet ← discover_fleet_rules m
      pure (device_rules, fleet)

/-- `services/rules.py` RuleEngine after construction. -/
structure RuleEngine where
  rules : List Rule
  fleet_rules : List FleetRule
  loaded_from_module : Bool

/-- RuleEngine.__init__.  `moduleLookup` models `import_module(module_name)`:
`none` when the module is absent (ModuleNotFoundError), otherwise `some` of
its inspected attributes.  Explicit device rules suppress discovery entirely;
with explicit fleet rules only, discovery still runs and its fleet rules are
replaced by the validated explicit ones. -/
def RuleEngine.make (moduleLookup : Option RulesModule)
    (rules : Option (List (Candidate Rule)))
    (fleet_rules : Option (List (Candidate FleetRule))) :
    Except String RuleEngine :=
  match rules with
  | some rs => do
      let r ← validate_rules rs
      let f ← validate_fleet_rules (fleet_rules.getD [])
      pure { rules := r, fleet_rules := f, loaded_from_module := false }
  | none => do
      let loaded ← load_from_module moduleLookup
      match fleet_rules with
      | some fs => do
          let f ← validate_fleet_rules fs
          pure { rules := loaded.1, fleet_rules := f, loaded_from_module := true }
      | none =>
          pure { rules := loaded.1, fleet_rules := loaded.2,
                 loaded_from_module := true }

/-- RuleEngine.create_session: a fresh session bound to the engine's rule
set. -/
def RuleEngine.create_session (e : RuleEngine) : RuleEngineSession :=
  { rules := e.rules, fleet_rules := e.fleet_rules, issues := [], devices := [] }

/-- The built-in `network_generators.rules` module as discovery sees it: the
`register`/`register_fleet` calls populate DATA_RULES and FLEET_RULES when
the module loads, and the same callables carry the decorator markers. -/
def network_generators_rules_module : RulesModule :=
  { DATA_RULES := some [.callable assign_site_domains,
                        .callable suppress_matches_for_wgw01],
    decorated_rules := [.callable assign_site_domains,
                        .callable suppress_matches_for_wgw01],
    FLEET_RULES := some [.callable ensure_unique_ipv4_allocations],
    decorated_fleet_rules := [.callable ensure_unique_ipv4_allocations] }

/-- Characters permitted in a resolver name by TOKEN_PATTERN. -/
def isTokenNameChar (c : Char) : Bool := c.isAlpha || c.isDigit || c == '_'

/-- `generators/data.py` TOKEN_PATTERN, the anchored regular expression
matching the whole string against the shape of an opening angle bracket, a
non-empty alphanumeric-or-underscore resolver name, an optional bar followed
by an args portion free of closing angle brackets, and a closing angle
bracket; yields the resolver name and the optional args portion. -/
def tokenPatternMatch (s : String) : Option (String × Option String) :=
  match s.toList with
  | '<' :: rest =>
      let name := rest.takeWhile isTokenNameChar
      let afterName := rest.dropWhile isTokenNameChar
      if name.isEmpty then none
      else
        match afterName with
        | ['>'] => some (name.asString, none)
        | '|' :: more =>
            if more.getLast? == some '>' &&
               more.dropLast.all (fun ch => ch != '>') then
              some (name.asString, some more.dropLast.asString)
            else none
        | _ => none
  | _ => none

/-- Python `str.lower` on ASCII resolver names. -/
def pyLower (s : String) : String := (s.toList.map Char.toLower).asString

/-- `generators/data.py`: the positional argument list, splitting the args
portion on bars and discarding every empty segment; `None` and the empty
string yield no arguments. -/
def tokenArguments (args : Option String) : List String :=
  match args with
  | none => []
  | some a =>
      if a == "" then []
      else (pySplit a '|').filter (fun part => part != "")

/-- `IPAM_INTERFACE_REQUIRED_MESSAGE` with the candidate substituted. -/
def IPAM_INTERFACE_REQUIRED_MESSAGE (candidate : String) : String :=
  "Resolver \x27ipam\x27 requires an interface context (value " ++
    pyQuote candidate ++ ")"

/-- `IPAM_LOOKUP_FAILED_MESSAGE` with hostname, interface and error
substituted. -/
def IPAM_LOOKUP_FAILED_MESSAGE (hostname interfaceName error : String) : String :=
  hostname ++ " " ++ interfaceName ++ ": " ++ error

/-- `ASSET_LOOKUP_FAILED_MESSAGE` with hostname and error substituted. -/
def ASSET_LOOKUP_FAILED_MESSAGE (hostname error : String) : String :=
  hostname ++ ": " ++ error

/-- `UNSUPPORTED_RESOLVER_MESSAGE` with resolver and candidate substituted. -/
def UNSUPPORTED_RESOLVER_MESSAGE (resolver candidate : String) : String :=
  "Resolver \x27" ++ resolver ++ "\x27 is not supported in " ++ pyQuote candidate

/-- `DataProcessor._resolve_token`, with the processor's ipam and asset
dependencies abstracted as lookup functions that either return the resolved
string or fail with the lookup error text. -/
def resolve_token
    (ipamLookup : String → String → String → List String → Except String String)
    (assetLookup : String → String → List String → Except String String)
    (candidate : String) (site : String) (hostname : String)
    (interface : Option String) : Except String String :=
  match tokenPatternMatch (pyStrip candidate) with
  | none => .ok candidate
  | some (name, args) =>
      let resolver := pyLower name
      let arguments := tokenArguments args
      if resolver = "ipam" then
        match interface with
        | none => .error (IPAM_INTERFACE_REQUIRED_MESSAGE candidate)
        | some iface =>
            match ipamLookup site hostname iface arguments with
            | .ok value => .ok value
            | .error exc => .error (IPAM_LOOKUP_FAILED_MESSAGE hostname iface exc)
      else if resolver = "asset" then
        match assetLookup site hostname arguments with
        | .ok value => .ok value
        | .error exc => .error (ASSET_LOOKUP_FAILED_MESSAGE hostname exc)
      else .error (UNSUPPORTED_RESOLVER_MESSAGE resolver candidate)

/-- The text `sub` occurs inside `s`, witnessed by a decomposition. -/
def containsText (s sub : String) : Prop := ∃ pre post, s = pre ++ sub ++ post

theorem containsText_trans {a b c : String} (h1 : containsText a b)
    (h2 : containsText b c) : containsText a c := by
  obtain ⟨p, q, rfl⟩ := h1
  obtain ⟨p', q', rfl⟩ := h2
  exact ⟨p ++ p', q' ++ q, by simp [String.append_assoc]⟩

theorem containsText_refl (a : String) : containsText a a :=
  ⟨"", "", by simp [String.empty_append, String.append_empty]⟩

theorem containsText_of_append_left {a b c : String} (h : containsText a c) :
    containsText (a ++ b) c := by
  obtain ⟨p, q, rfl⟩ := h
  exact ⟨p, q ++ b, by simp [String.append_assoc]⟩

theorem containsText_of_append_right {a b c : String} (h : containsText b c) :
    containsText (a ++ b) c := by
  obtain ⟨p, q, rfl⟩ := h
  exact ⟨a ++ p, q, by simp [String.append_assoc]⟩

theorem containsText_joinWith {sep : String} {lines : List String} {e : String}
    (h : e ∈ lines) : containsText (joinWith sep lines) e := by
  induction lines with
  | nil => cases h
  | cons x rest ih =>
      cases rest with
      | nil =>
          rcases List.mem_singleton.mp h with rfl
          exact containsText_refl e
      | cons y ys =>
          rcases List.mem_cons.mp h with rfl | hmem
          · exact containsText_of_append_left
              (containsText_of_append_left (containsText_refl e))
          · exact containsText_of_append_right (ih hmem)

theorem foldl_append_flatMap {α β : Type} (f : α → List β) (l : List α)
    (init : List β) :
    l.foldl (fun acc x => acc ++ f x) init = init ++ l.flatMap f := by
  induction l generalizing init with
  | nil => simp
  | cons x xs ih => simp [ih, List.append_assoc]

theorem finalIssues_eq (s : RuleEngineSession) :
    s.finalIssues =
      s.issues ++ s.fleet_rules.flatMap (fun fr => fr { devices := s.devices }) := by
  unfold RuleEngineSession.finalIssues
  cases hfr : s.fleet_rules with
  | nil => simp
  | cons fr rest => simp [foldl_append_flatMap]

theorem finalize_eq (s : RuleEngineSession) :
    s.finalize =
      if s.finalIssues.isEmpty then .ok () else .error { issues := s.finalIssues } := by
  unfold RuleEngineSession.finalize
  cases hfr : s.fleet_rules with
  | nil =>
      cases his : s.issues with
      | nil =>
          have hfi : s.finalIssues = [] := by
            rw [finalIssues_eq, hfr, his]; simp
          simp [hfi]
      | cons i rest =>
          have hfi : s.finalIssues = s.issues := by
            rw [finalIssues_eq, hfr]; simp
          simp [hfi, his]
  | cons fr rest => simp

/-- C1: after all fleet rules have run, the issue sequence is the issues
recorded during the applies followed by the fleet-rule issues in order;
finalize raises an aggregate violation exactly when that sequence is
non-empty, the raised error carries every message in emission order, its
display message joins them with a blank-line separator, and with no issues
finalize returns normally. -/
theorem finalize_raises_iff_issues (s : RuleEngineSession) :
    s.finalIssues =
      s.issues ++ s.fleet_rules.flatMap (fun fr => fr { devices := s.devices }) ∧
    ((∃ e, s.finalize = .error e) ↔ s.finalIssues ≠ []) ∧
    (∀ e, s.finalize = .error e →
      e.issues = s.finalIssues ∧ e.message = joinWith "\n\n" s.finalIssues) ∧
    (s.finalIssues = [] → s.finalize = .ok ()) := by
  refine ⟨finalIssues_eq s, ?_, ?_, ?_⟩
  · rw [finalize_eq]
    cases hfi : s.finalIssues with
    | nil => simp
    | cons i rest => simp
  · intro e he
    rw [finalize_eq] at he
    by_cases hfi : s.finalIssues.isEmpty
    · rw [if_pos hfi] at he
      exact absurd he (by simp)
    · rw [if_neg hfi] at he
      injection he with h
      subst h
      exact ⟨rfl, rfl⟩
  · intro hfi
    rw [finalize_eq, hfi]
    simp

/-- C4: with an entirely empty rule set, apply is a no-op that allocates no
device record and records no issue, and the immediately following finalize
returns normally. -/
theorem empty_rule_set_apply_finalize_noop (e : RuleEngine)
    (h1 : e.rules = []) (h2 : e.fleet_rules = [])
    (device : Device) (site source_path : String)
    (display_path : Option String) :
    (e.create_session).apply device site source_path display_path =
      e.create_session ∧
    ((e.create_session).apply device site source_path display_path).devices = [] ∧
    ((e.create_session).apply device site source_path display_path).issues = [] ∧
    ((e.create_session).apply device site source_path display_path).finalize =
      .ok () := by
  have hs : e.create_session =
      { rules := [], fleet_rules := [], issues := [], devices := [] } := by
    rw [RuleEngine.create_session, h1, h2]
  have happ : (e.create_session).apply device site source_path display_path =
      e.create_session := by
    rw [hs]
    simp [RuleEngineSession.apply]
  refine ⟨happ, ?_, ?_, ?_⟩
  · rw [happ, hs]
  · rw [happ, hs]
  · rw [happ, hs, RuleEngineSession.finalize]
    simp

/-- C4 witness: a concrete engine with an empty rule set. -/
theorem empty_rule_set_apply_finalize_noop_witness :
    let e : RuleEngine :=
      { rules := [], fleet_rules := [], loaded_from_module := false }
    (e.create_session).apply [("hostname", Value.str "h")] "sfo01" "d.json" none =
      e.create_session ∧
    ((e.create_session).apply [("hostname", Value.str "h")] "sfo01" "d.json"
      none).devices = [] ∧
    ((e.create_session).apply [("hostname", Value.str "h")] "sfo01" "d.json"
      none).issues = [] ∧
    ((e.create_session).apply [("hostname", Value.str "h")] "sfo01" "d.json"
      none).finalize = .ok () :=
  empty_rule_set_apply_finalize_noop
    { rules := [], fleet_rules := [], loaded_from_module := false }
    rfl rfl [("hostname", Value.str "h")] "sfo01" "d.json" none

/-- C9: a rule context built without an issue sink (the default) always fails
report_issue with a RuntimeError saying issue reporting is not enabled,
whatever the message. -/
theorem report_issue_without_sink_raises (device : Device)
    (site source_path message : String) (issues : List String) :
    RuleContext.report_issue
        { device := device, site := site, source_path := source_path }
        message issues =
      .error "Issue reporting is not enabled for this context" := rfl

/-- C6: a candidate whose trimmed form does not match TOKEN_PATTERN is
returned unchanged by the token resolver, and resolution does not fail. -/
theorem non_token_passthrough
    (ipamLookup : String → String → String → List String → Except String String)
    (assetLookup : String → String → List String → Except String String)
    (candidate site hostname : String) (interface : Option String)
    (h : tokenPatternMatch (pyStrip candidate) = none) :
    resolve_token ipamLookup assetLookup candidate site hostname interface =
      .ok candidate := by
  rw [resolve_token, h]

/-- C6 witness: a plain address literal passes through unchanged. -/
theorem non_token_passthrough_witness :
    tokenPatternMatch (pyStrip "10.0.0.1/24") = none ∧
    resolve_token (fun _ _ _ _ => .ok "resolved") (fun _ _ _ => .ok "resolved")
        "10.0.0.1/24" "sfo01" "wgw01.sfo01" (some "ge-0/0/0") =
      .ok "10.0.0.1/24" :=
  ⟨by rfl, non_token_passthrough _ _ "10.0.0.1/24" "sfo01" "wgw01.sfo01"
      (some "ge-0/0/0") (by rfl)⟩

/-- The wrapping applied to an ipam lookup outcome by _resolve_token. -/
def wrapIpamResult (hostname iface : String) :
    Except String String → Except String String
  | .ok value => .ok value
  | .error exc => .error (IPAM_LOOKUP_FAILED_MESSAGE hostname iface exc)

/-- The wrapping applied to an asset lookup outcome by _resolve_token. -/
def wrapAssetResult (hostname : String) :
    Except String String → Except String String
  | .ok value => .ok value
  | .error exc => .error (ASSET_LOOKUP_FAILED_MESSAGE hostname exc)

/-- The args portion split on bars with every empty segment discarded, the
wording of the specification for the derived positional argument list. -/
def splitDropEmpty (args : Option String) : List String :=
  match args with
  | none => []
  | some a => (pySplit a '|').filter (fun part => part != "")

/-- C7: for a matching token, the positional argument list handed to the
dispatched lookup is the args portion split on bars with every empty segment
discarded, so a blank middle argument shifts later arguments into earlier
positions instead of surviving as a placeholder. -/
theorem dispatched_arguments_drop_empty_segments
    (ipamLookup : String → String → String → List String → Except String String)
    (assetLookup : String → String → List String → Except String String)
    (candidate site hostname name : String) (args : Option String)
    (h : tokenPatternMatch (pyStrip candidate) = some (name, args)) :
    tokenArguments args = splitDropEmpty args ∧
    (pyLower name = "ipam" → ∀ iface,
      resolve_token ipamLookup assetLookup candidate site hostname (some iface) =
        wrapIpamResult hostname iface
          (ipamLookup site hostname iface (tokenArguments args))) ∧
    (pyLower name = "asset" → ∀ interface,
      resolve_token ipamLookup assetLookup candidate site hostname interface =
        wrapAssetResult hostname (assetLookup site hostname (tokenArguments args))) := by
  refine ⟨?_, ?_, ?_⟩
  · cases args with
    | none => rfl
    | some a =>
        by_cases ha : a = ""
        · subst ha; rfl
        · simp [tokenArguments, splitDropEmpty, ha]
  · intro hname iface
    rw [resolve_token, h]
    simp only [hname, if_pos rfl]
    cases ipamLookup site hostname iface (tokenArguments args) with
    | ok v => rfl
    | error e => rfl
  · intro hname interface
    rw [resolve_token, h]
    have hne : pyLower name ≠ "ipam" := by
      rw [hname]; decide
    simp only [hname, if_neg hne, if_pos rfl]
    cases assetLookup site hostname (tokenArguments args) with
    | ok v => rfl
    | error e => rfl

/-- C7 witness: a token meant to skip the hostname override with a blank
middle segment instead shifts the interface argument into the hostname
position, as observed by a lookup echoing its argument list. -/
theorem dispatched_arguments_drop_empty_segments_witness :
    resolve_token
        (fun _ _ iface arguments => .ok (joinWith "," (iface :: arguments)))
        (fun _ _ _ => .ok "unused")
        "<ipam|site1||ge-0>" "nyc01" "wgw01.nyc01" (some "xe-9") =
      .ok "xe-9,site1,ge-0" := by
  have h := dispatched_arguments_drop_empty_segments
      (fun _ _ iface arguments => .ok (joinWith "," (iface :: arguments)))
      (fun _ _ _ => .ok "unused")
      "<ipam|site1||ge-0>" "nyc01" "wgw01.nyc01" "ipam" (some "site1||ge-0")
      (by rfl)
  rw [h.2.1 (by rfl) "xe-9"]
  rfl

/-- The repr carried by the first non-callable entry of a candidate list. -/
def firstNotCallable {α : Type} : List (Candidate α) → Option String
  | [] => none
  | .callable _ :: rest => firstNotCallable rest
  | .notCallable r :: _ => some r

/-- The invocable values of a candidate list, in order. -/
def callableEntries {α : Type} : List (Candidate α) → List α
  | [] => []
  | .callable f :: rest => f :: callableEntries rest
  | .notCallable _ :: rest => callableEntries rest

theorem firstNotCallable_eq_none_iff {α : Type} (cs : List (Candidate α)) :
    firstNotCallable cs = none ↔ ∀ c ∈ cs, c.isCallable = true := by
  induction cs with
  | nil => simp [firstNotCallable]
  | cons c rest ih =>
      cases c with
      | callable f => simp [firstNotCallable, ih, Candidate.isCallable]
      | notCallable r => simp [firstNotCallable, Candidate.isCallable]

theorem validate_rules_eq (cs : List (Candidate Rule)) :
    validate_rules cs =
      match firstNotCallable cs with
      | some r => .error (INVALID_RULE_MESSAGE r)
      | none => .ok (callableEntries cs) := by
  induction cs with
  | nil => rfl
  | cons c rest ih =>
      cases c with
      | callable f =>
          have hstep : validate_rules (Candidate.callable f :: rest) =
              (do
                let rs ← validate_rules rest
                pure (f :: rs)) := rfl
          cases hfb : firstNotCallable rest with
          | some r =>
              rw [hfb] at ih
              rw [hstep, ih]
              simp only [firstNotCallable, hfb]
              rfl
          | none =>
              rw [hfb] at ih
              rw [hstep, ih]
              simp only [firstNotCallable, hfb, callableEntries]
              rfl
      | notCallable r => rfl

theorem validate_fleet_rules_eq (cs : List (Candidate FleetRule)) :
    validate_fleet_rules cs =
      match firstNotCallable cs with
      | some r => .error (INVALID_FLEET_RULE_MESSAGE r)
      | none => .ok (callableEntries cs) := by
  induction cs with
  | nil => rfl
  | cons c rest ih =>
      cases c with
      | callable f =>
          have hstep : validate_fleet_rules (Candidate.callable f :: rest) =
              (do
                let rs ← validate_fleet_rules rest
                pure (f :: rs)) := rfl
          cases hfb : firstNotCallable rest with
          | some r =>
              rw [hfb] at ih
              rw [hstep, ih]
              simp only [firstNotCallable, hfb]
              rfl
          | none =>
              rw [hfb] at ih
              rw [hstep, ih]
              simp only [firstNotCallable, hfb, callableEntries]
              rfl
      | notCallable r => rfl

/-- C8: explicit engine construction fails at the first non-invocable entry
with a registration error naming its repr (device rules checked before fleet
rules, stopping before any session could exist), and succeeds exactly when
every supplied entry is invocable. -/
theorem engine_construction_checks_callables (moduleLookup : Option RulesModule)
    (rs : List (Candidate Rule)) (fs : List (Candidate FleetRule)) :
    RuleEngine.make moduleLookup (some rs) (some fs) =
      (match firstNotCallable rs with
       | some r => .error (INVALID_RULE_MESSAGE r)
       | none =>
         match firstNotCallable fs with
         | some r => .error (INVALID_FLEET_RULE_MESSAGE r)
         | none => .ok { rules := callableEntries rs,
                         fleet_rules := callableEntries fs,
                         loaded_from_module := false }) ∧
    (firstNotCallable rs = none ↔ ∀ c ∈ rs, c.isCallable = true) ∧
    (firstNotCallable fs = none ↔ ∀ c ∈ fs, c.isCallable = true) := by
  refine ⟨?_, firstNotCallable_eq_none_iff rs, firstNotCallable_eq_none_iff fs⟩
  rw [RuleEngine.make]
  simp only [Option.getD]
  rw [validate_rules_eq, validate_fleet_rules_eq]
  cases hr : firstNotCallable rs with
  | some r => rfl
  | none =>
      cases hf : firstNotCallable fs with
      | some r => rfl
      | none => rfl

/-- C10: with no explicit device rules but explicit fleet rules, module
discovery still runs and supplies the device rules, while the validated
explicit fleet rules replace whatever fleet rules discovery produced. -/
theorem explicit_fleet_rules_override_discovery (m : RulesModule)
    (fs : List (Candidate FleetRule)) (dr : List Rule) (mf fv : List FleetRule)
    (hload : load_from_module (some m) = .ok (dr, mf))
    (hfs : validate_fleet_rules fs = .ok fv) :
    RuleEngine.make (some m) none (some fs) =
      .ok { rules := dr, fleet_rules := fv, loaded_from_module := true } := by
  have hmk : RuleEngine.make (some m) none (some fs) =
      (do
        let loaded ← load_from_module (some m)
        let f ← validate_fleet_rules fs
        pure { rules := loaded.1, fleet_rules := f,
               loaded_from_module := true }) := rfl
  rw [hmk, hload]
  have hbind : (do
      let loaded ← (Except.ok (dr, mf) : Except String (List Rule × List FleetRule))
      let f ← validate_fleet_rules fs
      pure { rules := loaded.1, fleet_rules := f,
             loaded_from_module := true } : Except String RuleEngine) =
      (do
        let f ← validate_fleet_rules fs
        pure { rules := dr, fleet_rules := f, loaded_from_module := true }) := rfl
  rw [hbind, hfs]
  rfl

/-- C10 witness: the built-in rules module supplies the device rules while an
explicitly supplied fleet-rule list replaces the discovered one. -/
theorem explicit_fleet_rules_override_discovery_witness :
    RuleEngine.make (some network_generators_rules_module) none (some []) =
      .ok { rules := [assign_site_domains, suppress_matches_for_wgw01],
            fleet_rules := [], loaded_from_module := true } :=
  explicit_fleet_rules_override_discovery network_generators_rules_module
    [] [assign_site_domains, suppress_matches_for_wgw01]
    [ensure_unique_ipv4_allocations] [] (by rfl) (by rfl)

/-- C1 witness: a session with two recorded issues and no fleet rules. -/
theorem finalize_raises_iff_issues_witness :
    ∃ e, (⟨[], [], ["a", "b"], []⟩ : RuleEngineSession).finalize = .error e ∧
      e.issues = ["a", "b"] ∧ e.message = "a\n\nb" := by
  have h := finalize_raises_iff_issues ⟨[], [], ["a", "b"], []⟩
  obtain ⟨e, he⟩ := h.2.1.mpr (by decide)
  obtain ⟨hiss, hmsg⟩ := h.2.2.1 e he
  exact ⟨e, he, by rw [hiss]; rfl, by rw [hmsg]; rfl⟩

/-- C8 witness: a single non-callable candidate fails construction with the
registration message naming its repr. -/
theorem engine_construction_checks_callables_witness :
    RuleEngine.make none (some [Candidate.notCallable "42"]) (some []) =
      .error (INVALID_RULE_MESSAGE "42") := by
  have h := engine_construction_checks_callables none
      [Candidate.notCallable "42"] []
  rw [h.1]
  rfl

/-- One device handed to RuleEngineSession.apply by the device processor. -/
structure ApplyInput where
  device : Device
  site : String
  source_path : String
  display_path : Option String := none

/-- The multi-device session protocol driven by the device processor
(DataProcessor.run): apply every input in order. -/
def applyAll (s : RuleEngineSession) (inputs : List ApplyInput) :
    RuleEngineSession :=
  inputs.foldl (fun s i => s.apply i.device i.site i.source_path i.display_path) s

/-- Device rules of a rule set run over one device in registration order:
the final device and the reported messages rule by rule, each rule seeing the
mutations of the previous ones. -/
def runRulesSpec (rules : List Rule) (site source_path : String)
    (device : Device) : Device × List String :=
  match rules with
  | [] => (device, [])
  | r :: rest =>
      let out := r { device := device, site := site, source_path := source_path,
                     record_issue := some (fun m issues => issues ++ [m]) }
      let next := runRulesSpec rest site source_path out.1
      (next.1, out.2 ++ next.2)

/-- The display path computed by apply. -/
def displayOf (source_path : String) (display_path : Option String) : String :=
  match display_path with
  | some d => if d = "" then source_path else d
  | none => source_path

/-- The device record snapshot produced by one apply call. -/
def applySnapshot (rules : List Rule) (i : ApplyInput) : DeviceRecord :=
  { device := (runRulesSpec rules i.site i.source_path i.device).1,
    site := i.site, source_path := i.source_path,
    display_path := displayOf i.source_path i.display_path }

/-- The issues reported during one apply call, in emission order. -/
def applyIssues (rules : List Rule) (i : ApplyInput) : List String :=
  (runRulesSpec rules i.site i.source_path i.device).2

/-- Fleet-rule issues over a fixed context, in registration order. -/
def fleetIssuesSpec (fleet_rules : List FleetRule) (ctx : FleetContext) :
    List String :=
  fleet_rules.flatMap (fun fr => fr ctx)

theorem rules_foldl_eq (rules : List Rule) (site source_path : String)
    (device : Device) (issues : List String) :
    rules.foldl (fun acc r =>
      let out := r { device := acc.1, site := site, source_path := source_path,
                     record_issue := some (fun m issues => issues ++ [m]) }
      (out.1, acc.2 ++ out.2)) (device, issues) =
    ((runRulesSpec rules site source_path device).1,
      issues ++ (runRulesSpec rules site source_path device).2) := by
  induction rules generalizing device issues with
  | nil => simp [runRulesSpec]
  | cons r rest ih => simp [runRulesSpec, ih, List.append_assoc]

theorem apply_eq (s : RuleEngineSession) (i : ApplyInput)
    (h : (s.rules.isEmpty && s.fleet_rules.isEmpty) = false) :
    s.apply i.device i.site i.source_path i.display_path =
      { s with issues := s.issues ++ applyIssues s.rules i,
               devices := s.devices ++ [applySnapshot s.rules i] } := by
  unfold RuleEngineSession.apply
  rw [h]
  simp only [Bool.false_eq_true, if_false]
  rw [rules_foldl_eq]
  rfl

theorem applyAll_eq (rules : List Rule) (frs : List FleetRule)
    (issues0 : List String) (devs0 : List DeviceRecord)
    (inputs : List ApplyInput)
    (h : (rules.isEmpty && frs.isEmpty) = false) :
    applyAll ⟨rules, frs, issues0, devs0⟩ inputs =
      ⟨rules, frs, issues0 ++ inputs.flatMap (applyIssues rules),
        devs0 ++ inputs.map (applySnapshot rules)⟩ := by
  induction inputs generalizing issues0 devs0 with
  | nil => simp [applyAll]
  | cons i rest ih =>
      have hstep : applyAll ⟨rules, frs, issues0, devs0⟩ (i :: rest) =
          applyAll ((⟨rules, frs, issues0, devs0⟩ : RuleEngineSession).apply
            i.device i.site i.source_path i.display_path) rest := rfl
      rw [hstep, apply_eq _ _ h, ih]
      simp [List.append_assoc]

/-- C5: running a session over any inputs, the final issue sequence is every
device-rule issue (inputs in apply order, rules in registration order, each
rule seeing the previous mutations) followed by every fleet-rule issue
(registration order), and the fleet context presents the snapshots in apply
order; so no fleet rule contributes before all device rules across all
applied devices have, and the snapshots reflect the completed device-rule
mutations. -/
theorem session_phase_ordering (rules : List Rule) (frs : List FleetRule)
    (inputs : List ApplyInput)
    (h : (rules.isEmpty && frs.isEmpty) = false) :
    (applyAll ⟨rules, frs, [], []⟩ inputs).devices =
      inputs.map (applySnapshot rules) ∧
    (applyAll ⟨rules, frs, [], []⟩ inputs).issues =
      inputs.flatMap (applyIssues rules) ∧
    (applyAll ⟨rules, frs, [], []⟩ inputs).finalIssues =
      inputs.flatMap (applyIssues rules) ++
        fleetIssuesSpec frs { devices := inputs.map (applySnapshot rules) } := by
  rw [applyAll_eq rules frs [] [] inputs h]
  refine ⟨by simp, by simp, ?_⟩
  rw [finalIssues_eq]
  simp [fleetIssuesSpec]

/-- C5 witness: the built-in rule set run over two concrete devices. -/
theorem session_phase_ordering_witness :
    (applyAll ⟨[assign_site_domains, suppress_matches_for_wgw01],
        [ensure_unique_ipv4_allocations], [], []⟩
      [{ device := [("hostname", Value.str "wgw01.nyc01"),
                    ("matches", Value.list [Value.str "system|>>|"])],
         site := "nyc01", source_path := "data/nyc01/wgw01.json" },
       { device := [("hostname", Value.str "wgw02.nyc01")],
         site := "nyc01", source_path := "data/nyc01/wgw02.json" }]).finalIssues =
      [{ device := [("hostname", Value.str "wgw01.nyc01"),
                    ("matches", Value.list [Value.str "system|>>|"])],
         site := "nyc01", source_path := "data/nyc01/wgw01.json" },
       ({ device := [("hostname", Value.str "wgw02.nyc01")],
          site := "nyc01", source_path := "data/nyc01/wgw02.json" } : ApplyInput)].flatMap
          (applyIssues [assign_site_domains, suppress_matches_for_wgw01]) ++
        fleetIssuesSpec [ensure_unique_ipv4_allocations]
          { devices :=
              [{ device := [("hostname", Value.str "wgw01.nyc01"),
                            ("matches", Value.list [Value.str "system|>>|"])],
                 site := "nyc01", source_path := "data/nyc01/wgw01.json" },
               ({ device := [("hostname", Value.str "wgw02.nyc01")],
                  site := "nyc01",
                  source_path := "data/nyc01/wgw02.json" } : ApplyInput)].map
                (applySnapshot [assign_site_domains,
                  suppress_matches_for_wgw01]) } :=
  (session_phase_ordering [assign_site_domains, suppress_matches_for_wgw01]
    [ensure_unique_ipv4_allocations]
    [{ device := [("hostname", Value.str "wgw01.nyc01"),
                  ("matches", Value.list [Value.str "system|>>|"])],
       site := "nyc01", source_path := "data/nyc01/wgw01.json" },
     { device := [("hostname", Value.str "wgw02.nyc01")],
       site := "nyc01", source_path := "data/nyc01/wgw02.json" }]
    (by rfl)).2.2

/-- The interface entries one record contributes to the fleet scan: the
entries of a dict-shaped `interfaces` field, nothing otherwise. -/
def interfaceItems (record : DeviceRecord) : List (String × Value) :=
  match getVal record.device "interfaces" with
  | some (.dict interfaces) => interfaces
  | _ => []

/-- The error lines one interface entry contributes: exactly one for an
offending entry, none otherwise. -/
def errLinesOf (record : DeviceRecord) (iface_name : String)
    (iface_data : Value) : List String :=
  match classifyInterface record iface_name iface_data with
  | .err line => [line]
  | _ => []

/-- The assignment pairs one interface entry contributes: exactly one for a
successfully parsed IPv4 entry, none otherwise. -/
def assignPairsOf (record : DeviceRecord) (iface_name : String)
    (iface_data : Value) : List (String × String) :=
  match classifyInterface record iface_name iface_data with
  | .assign key source => [(key, source)]
  | _ => []

/-- All error lines of one record, in interface order. -/
def recordErrorLines (record : DeviceRecord) : List String :=
  (interfaceItems record).flatMap (fun p => errLinesOf record p.1 p.2)

/-- All assignment pairs of one record, in interface order. -/
def recordAssignPairs (record : DeviceRecord) : List (String × String) :=
  (interfaceItems record).flatMap (fun p => assignPairsOf record p.1 p.2)

/-- Grouping of assignment pairs by canonical address in insertion order. -/
def groupPairs (pairs : List (String × String)) : List (String × List String) :=
  pairs.foldl (fun m q => addAssign m q.1 q.2) []

/-- The duplicate-allocation issue list of the built-in fleet rule in terms
of the per-record assignment pairs. -/
def duplicateIssuesOf (ctx : FleetContext) : List String :=
  let duplicates := (groupPairs (ctx.devices.flatMap recordAssignPairs)).filter
      (fun p => 1 < p.2.length)
  if duplicates.isEmpty then [] else [duplicatesMessage duplicates]

theorem scan_inner_eq (record : DeviceRecord) (ifaces : List (String × Value))
    (acc : List String × List (String × List String)) :
    ifaces.foldl (fun acc p =>
      match classifyInterface record p.1 p.2 with
      | .skip => acc
      | .err line => (acc.1 ++ [line], acc.2)
      | .assign key source => (acc.1, addAssign acc.2 key source)) acc =
    (acc.1 ++ ifaces.flatMap (fun p => errLinesOf record p.1 p.2),
     (ifaces.flatMap (fun p => assignPairsOf record p.1 p.2)).foldl
       (fun m q => addAssign m q.1 q.2) acc.2) := by
  induction ifaces generalizing acc with
  | nil => simp
  | cons p rest ih =>
      rw [List.foldl_cons]
      cases hcl : classifyInterface record p.1 p.2 with
      | skip =>
          rw [ih]
          simp [errLinesOf, assignPairsOf, hcl]
      | err line =>
          rw [ih]
          simp [errLinesOf, assignPairsOf, hcl, List.append_assoc]
      | assign key source =>
          rw [ih]
          simp [errLinesOf, assignPairsOf, hcl]

theorem scanStep_eq (acc : List String × List (String × List String))
    (record : DeviceRecord) :
    scanStep acc record =
      (acc.1 ++ recordErrorLines record,
       (recordAssignPairs record).foldl
         (fun m q => addAssign m q.1 q.2) acc.2) := by
  unfold scanStep
  cases hint : getVal record.device "interfaces" with
  | none =>
      have hitems : interfaceItems record = [] := by
        unfold interfaceItems; rw [hint]
      simp [recordErrorLines, recordAssignPairs, hitems]
  | some v =>
      cases v with
      | dict interfaces =>
          have hitems : interfaceItems record = interfaces := by
            unfold interfaceItems; rw [hint]
          exact (scan_inner_eq record interfaces acc).trans
            (by rw [recordErrorLines, recordAssignPairs, hitems])
      | null =>
          have hitems : interfaceItems record = [] := by
            unfold interfaceItems; rw [hint]
          simp [recordErrorLines, recordAssignPairs, hitems]
      | bool b =>
          have hitems : interfaceItems record = [] := by
            unfold interfaceItems; rw [hint]
          simp [recordErrorLines, recordAssignPairs, hitems]
      | int n =>
          have hitems : interfaceItems record = [] := by
            unfold interfaceItems; rw [hint]
          simp [recordErrorLines, recordAssignPairs, hitems]
      | str s =>
          have hitems : interfaceItems record = [] := by
            unfold interfaceItems; rw [hint]
          simp [recordErrorLines, recordAssignPairs, hitems]
      | list items =>
          have hitems : interfaceItems record = [] := by
            unfold interfaceItems; rw [hint]
          simp [recordErrorLines, recordAssignPairs, hitems]

theorem fleetScan_aux (records : List DeviceRecord)
    (acc : List String × List (String × List String)) :
    records.foldl scanStep acc =
      (acc.1 ++ records.flatMap recordErrorLines,
       (records.flatMap recordAssignPairs).foldl
         (fun m q => addAssign m q.1 q.2) acc.2) := by
  induction records generalizing acc with
  | nil => simp
  | cons r rest ih =>
      rw [List.foldl_cons, scanStep_eq, ih]
      simp [List.append_assoc, List.foldl_append]

theorem fleetScan_eq (records : List DeviceRecord) :
    fleetScan records =
      (records.flatMap recordErrorLines,
       groupPairs (records.flatMap recordAssignPairs)) := by
  rw [fleetScan, fleetScan_aux]
  simp [groupPairs]

theorem ensure_unique_eq (ctx : FleetContext) :
    ensure_unique_ipv4_allocations ctx =
      (if (ctx.devices.flatMap recordErrorLines).isEmpty then []
       else [joinWith "\n" (ctx.devices.flatMap recordErrorLines)]) ++
      duplicateIssuesOf ctx := by
  unfold ensure_unique_ipv4_allocations duplicateIssuesOf
  rw [fleetScan_eq]

theorem classify_err_shape (record : DeviceRecord) (iface_name : String)
    (iface_data : Value) (line : String)
    (h : classifyInterface record iface_name iface_data = .err line) :
    ∃ tail, line = record.display_path ++ ": interface " ++ iface_name ++ tail := by
  cases iface_data with
  | null => simp [classifyInterface] at h
  | bool b => simp [classifyInterface] at h
  | int n => simp [classifyInterface] at h
  | str s => simp [classifyInterface] at h
  | list items => simp [classifyInterface] at h
  | dict entries =>
      simp only [classifyInterface] at h
      by_cases hf : (rawAddressOf entries).falsy
      · rw [if_pos hf] at h
        simp at h
      · rw [if_neg hf] at h
        cases hip : ip_interface (pyStr (rawAddressOf entries)) with
        | error exc =>
            rw [hip] at h
            injection h with h'
            refine ⟨" has invalid IPv4 " ++ pyQuote (pyStr (rawAddressOf entries)) ++
              ": " ++ exc, ?_⟩
            rw [← h']
            simp [String.append_assoc]
        | ok pi =>
            cases pi with
            | v4 a b c d p => rw [hip] at h; simp at h
            | v6 =>
                rw [hip] at h
                injection h with h'
                refine ⟨" has non-IPv4 address " ++
                  pyQuote (pyStr (rawAddressOf entries)), ?_⟩
                rw [← h']
                simp [String.append_assoc]

theorem classify_assign_shape (record : DeviceRecord) (iface_name : String)
    (iface_data : Value) (key source : String)
    (h : classifyInterface record iface_name iface_data = .assign key source) :
    ∃ tail, source = record.display_path ++ "::" ++ iface_name ++ tail := by
  cases iface_data with
  | null => simp [classifyInterface] at h
  | bool b => simp [classifyInterface] at h
  | int n => simp [classifyInterface] at h
  | str s => simp [classifyInterface] at h
  | list items => simp [classifyInterface] at h
  | dict entries =>
      simp only [classifyInterface] at h
      by_cases hf : (rawAddressOf entries).falsy
      · rw [if_pos hf] at h
        simp at h
      · rw [if_neg hf] at h
        cases hip : ip_interface (pyStr (rawAddressOf entries)) with
        | error exc => rw [hip] at h; simp at h
        | ok pi =>
            cases pi with
            | v6 => rw [hip] at h; simp at h
            | v4 a b c d p =>
                rw [hip] at h
                injection h with h1 h2
                refine ⟨" (" ++ record.hostname ++ ", " ++ ipv4Exploded a b c d ++
                  "/" ++ toString p ++ ")", ?_⟩
                rw [← h2]
                simp [String.append_assoc]

/-- C2 (corrected): the built-in fleet rule surfaces all malformed-address
lines as one single recorded issue joining them with newlines (followed by at
most one duplicate-allocation issue), and every offending interface entry
contributes exactly one such line, naming the record's display path and the
interface name, while contributing nothing to duplicate grouping. -/
theorem malformed_interfaces_one_line_each (ctx : FleetContext) :
    ensure_unique_ipv4_allocations ctx =
      (if (ctx.devices.flatMap recordErrorLines).isEmpty then []
       else [joinWith "\n" (ctx.devices.flatMap recordErrorLines)]) ++
      duplicateIssuesOf ctx ∧
    (∀ record iface_name iface_data line,
      classifyInterface record iface_name iface_data = .err line →
        errLinesOf record iface_name iface_data = [line] ∧
        assignPairsOf record iface_name iface_data = [] ∧
        containsText line record.display_path ∧
        containsText line iface_name) := by
  refine ⟨ensure_unique_eq ctx, ?_⟩
  intro record iface_name iface_data line h
  obtain ⟨tail, htail⟩ := classify_err_shape record iface_name iface_data line h
  refine ⟨by simp [errLinesOf, h], by simp [assignPairsOf, h], ?_, ?_⟩
  · refine ⟨"", ": interface " ++ iface_name ++ tail, ?_⟩
    rw [htail]
    simp [String.append_assoc, String.empty_append]
  · exact ⟨record.display_path ++ ": interface ", tail, htail⟩

/-- A record with two malformed interface addresses. -/
def twoBadRecord : DeviceRecord :=
  { device := [("hostname", Value.str "wgw01.nyc01"),
      ("interfaces", Value.dict
        [("ge-0/0/0", Value.dict [("ipv4", Value.str "not-an-ip")]),
         ("ge-0/0/1", Value.dict [("ipv4", Value.str "2001:db8::1/64")])])],
    site := "nyc01", source_path := "data/nyc01/wgw01.json",
    display_path := "data/nyc01/wgw01.json" }

/-- C2 counterexample: a fleet whose one record has two offending interfaces
produces a single recorded issue, not one recorded issue per offending
interface. -/
theorem malformed_interfaces_counterexample :
    (recordErrorLines twoBadRecord).length = 2 ∧
    (ensure_unique_ipv4_allocations { devices := [twoBadRecord] }).length = 1 ∧
    (ensure_unique_ipv4_allocations { devices := [twoBadRecord] }).length ≠
      (recordErrorLines twoBadRecord).length :=
  ⟨rfl, rfl, by decide⟩

/-- C2 witness: the per-interface facts at one concrete offending interface. -/
theorem malformed_interfaces_one_line_each_witness :
    ∃ line,
      classifyInterface twoBadRecord "ge-0/0/0"
          (Value.dict [("ipv4", Value.str "not-an-ip")]) = .err line ∧
      errLinesOf twoBadRecord "ge-0/0/0"
          (Value.dict [("ipv4", Value.str "not-an-ip")]) = [line] ∧
      assignPairsOf twoBadRecord "ge-0/0/0"
          (Value.dict [("ipv4", Value.str "not-an-ip")]) = [] ∧
      containsText line twoBadRecord.display_path ∧
      containsText line "ge-0/0/0" := by
  refine ⟨"data/nyc01/wgw01.json: interface ge-0/0/0 has invalid IPv4 \x27not-an-ip\x27: \x27not-an-ip\x27 does not appear to be an IPv4 or IPv6 interface", rfl, ?_⟩
  exact (malformed_interfaces_one_line_each { devices := [twoBadRecord] }).2
    twoBadRecord "ge-0/0/0" (Value.dict [("ipv4", Value.str "not-an-ip")])
    _ rfl

/-- The sources recorded under one canonical address, in insertion order. -/
def valuesFor (key : String) (pairs : List (String × String)) : List String :=
  pairs.filterMap (fun q => if q.1 = key then some q.2 else none)

/-- Group lookup in the assignments association list. -/
def lookupGroup (m : List (String × List String)) (key : String) :
    Option (List String) :=
  match m with
  | [] => none
  | (k, vs) :: rest => if k = key then some vs else lookupGroup rest key

theorem lookupGroup_addAssign_same (m : List (String × List String))
    (k v : String) :
    lookupGroup (addAssign m k v) k =
      some ((lookupGroup m k).getD [] ++ [v]) := by
  induction m with
  | nil => simp [addAssign, lookupGroup]
  | cons q rest ih =>
      obtain ⟨k', vs⟩ := q
      by_cases hk : k' = k
      · subst hk
        simp [addAssign, lookupGroup]
      · simp [addAssign, lookupGroup, hk, ih]

theorem lookupGroup_addAssign_other (m : List (String × List String))
    (k v key : String) (hne : k ≠ key) :
    lookupGroup (addAssign m k v) key = lookupGroup m key := by
  induction m with
  | nil => simp [addAssign, lookupGroup, hne]
  | cons q rest ih =>
      obtain ⟨k', vs⟩ := q
      by_cases hk : k' = k
      · subst hk
        simp [addAssign, lookupGroup, hne]
      · simp [addAssign, lookupGroup, hk, ih]

/-- Combining an existing group with later-recorded sources. -/
def extendGroup : Option (List String) → List String → Option (List String)
  | none, [] => none
  | none, ws => some ws
  | some vs, ws => some (vs ++ ws)

theorem extendGroup_nil (o : Option (List String)) : extendGroup o [] = o := by
  cases o with
  | none => rfl
  | some vs => simp [extendGroup]

theorem lookupGroup_foldl_addAssign (pairs : List (String × String))
    (m : List (String × List String)) (key : String) :
    lookupGroup (pairs.foldl (fun m q => addAssign m q.1 q.2) m) key =
      extendGroup (lookupGroup m key) (valuesFor key pairs) := by
  induction pairs generalizing m with
  | nil => simp [valuesFor, extendGroup_nil]
  | cons q rest ih =>
      rw [List.foldl_cons, ih]
      by_cases hq : q.1 = key
      · subst hq
        rw [lookupGroup_addAssign_same]
        have hcons : valuesFor q.1 (q :: rest) = q.2 :: valuesFor q.1 rest := by
          simp [valuesFor]
        rw [hcons]
        cases ho : lookupGroup m q.1 with
        | none => simp [extendGroup]
        | some vs => simp [extendGroup, List.append_assoc]
      · rw [lookupGroup_addAssign_other m q.1 q.2 key hq]
        simp [valuesFor, hq]

theorem mem_of_lookupGroup (m : List (String × List String)) (key : String)
    (vs : List String) (h : lookupGroup m key = some vs) : (key, vs) ∈ m := by
  induction m with
  | nil => simp [lookupGroup] at h
  | cons q rest ih =>
      obtain ⟨k', vs'⟩ := q
      by_cases hk : k' = key
      · subst hk
        rw [lookupGroup, if_pos rfl] at h
        injection h with h'
        subst h'
        exact List.mem_cons_self _ _
      · rw [lookupGroup, if_neg hk] at h
        exact List.mem_cons_of_mem _ (ih h)

theorem mem_insertByKey (p q : String × List String)
    (l : List (String × List String)) :
    q ∈ insertByKey p l ↔ q = p ∨ q ∈ l := by
  induction l with
  | nil => simp [insertByKey]
  | cons x rest ih =>
      by_cases h : p.1 ≤ x.1
      · simp [insertByKey, h, List.mem_cons]
      · simp [insertByKey, h, List.mem_cons, ih]
        tauto

theorem mem_sortByKey (l : List (String × List String))
    (q : String × List String) :
    q ∈ sortByKey l ↔ q ∈ l := by
  induction l with
  | nil => simp [sortByKey]
  | cons x rest ih =>
      have hs : sortByKey (x :: rest) = insertByKey x (sortByKey rest) := rfl
      rw [hs, mem_insertByKey]
      simp [ih, List.mem_cons]

theorem duplicatesMessage_contains_header
    (dups : List (String × List String)) :
    containsText (duplicatesMessage dups)
      "Duplicate IPv4 addresses detected:" := by
  unfold duplicatesMessage
  exact containsText_joinWith (List.mem_cons_self _ _)

theorem duplicatesMessage_contains_entry (dups : List (String × List String))
    (key : String) (vs : List String) (entry : String)
    (hmem : (key, vs) ∈ dups) (hentry : entry ∈ vs) :
    containsText (duplicatesMessage dups) ("    " ++ entry) := by
  unfold duplicatesMessage
  apply containsText_joinWith
  apply List.mem_cons_of_mem
  apply List.mem_flatMap.mpr
  refine ⟨(key, vs), (mem_sortByKey dups _).mpr hmem, ?_⟩
  exact List.mem_cons_of_mem _ (List.mem_map.mpr ⟨entry, hentry, rfl⟩)

theorem containsText_drop_right {a b c : String} (h : containsText a (b ++ c)) :
    containsText a b := by
  obtain ⟨p, q, hp⟩ := h
  exact ⟨p, c ++ q, by rw [hp]; simp [String.append_assoc]⟩

theorem containsText_drop_left {a b c : String} (h : containsText a (b ++ c)) :
    containsText a c := by
  obtain ⟨p, q, hp⟩ := h
  exact ⟨p ++ b, q, by rw [hp]; simp [String.append_assoc]⟩

theorem ensure_unique_contains_duplicates (devs : List DeviceRecord)
    (key : String)
    (hlen : 1 < (valuesFor key (devs.flatMap recordAssignPairs)).length) :
    ∃ issue, issue ∈ ensure_unique_ipv4_allocations { devices := devs } ∧
      containsText issue "Duplicate IPv4 addresses detected:" ∧
      ∀ entry ∈ valuesFor key (devs.flatMap recordAssignPairs),
        containsText issue ("    " ++ entry) := by
  have hproj : ({ devices := devs } : FleetContext).devices = devs := rfl
  have hgroup : lookupGroup (groupPairs (devs.flatMap recordAssignPairs)) key =
      some (valuesFor key (devs.flatMap recordAssignPairs)) := by
    unfold groupPairs
    rw [lookupGroup_foldl_addAssign]
    have hnil : lookupGroup [] key = none := rfl
    rw [hnil]
    cases hv : valuesFor key (devs.flatMap recordAssignPairs) with
    | nil => rw [hv] at hlen; simp at hlen
    | cons w ws => simp [extendGroup]
  have hdup : (key, valuesFor key (devs.flatMap recordAssignPairs)) ∈
      (groupPairs (devs.flatMap recordAssignPairs)).filter
        (fun p => 1 < p.2.length) := by
    apply List.mem_filter.mpr
    exact ⟨mem_of_lookupGroup _ _ _ hgroup, by simpa using hlen⟩
  have hisEmpty : ((groupPairs (devs.flatMap recordAssignPairs)).filter
      (fun p => 1 < p.2.length)).isEmpty = false := by
    cases hl : (groupPairs (devs.flatMap recordAssignPairs)).filter
        (fun p => 1 < p.2.length) with
    | nil => rw [hl] at hdup; simp at hdup
    | cons a as => rfl
  refine ⟨duplicatesMessage ((groupPairs (devs.flatMap recordAssignPairs)).filter
      (fun p => 1 < p.2.length)), ?_, ?_, ?_⟩
  · rw [ensure_unique_eq]
    apply List.mem_append_right
    unfold duplicateIssuesOf
    rw [hproj]
    simp only [hisEmpty]
    simp
  · exact duplicatesMessage_contains_header _
  · intro entry hentry
    exact duplicatesMessage_contains_entry _ key _ entry hdup hentry

/-- C3: whenever two device records at different positions in the fleet carry
interface addresses sharing the same canonical IPv4 value, finalize with the
built-in fleet rule raises an aggregate violation whose display message
contains the duplicate-addresses header, both records' display paths and both
interface names. -/
theorem duplicate_ipv4_detected (s : RuleEngineSession)
    (hfr : s.fleet_rules = [ensure_unique_ipv4_allocations])
    (pre mid post : List DeviceRecord) (r1 r2 : DeviceRecord)
    (hdevs : s.devices = pre ++ r1 :: (mid ++ r2 :: post))
    (n1 n2 key s1 s2 : String) (v1 v2 : Value)
    (hm1 : (n1, v1) ∈ interfaceItems r1)
    (hc1 : classifyInterface r1 n1 v1 = .assign key s1)
    (hm2 : (n2, v2) ∈ interfaceItems r2)
    (hc2 : classifyInterface r2 n2 v2 = .assign key s2) :
    ∃ e, s.finalize = .error e ∧
      containsText e.message "Duplicate IPv4 addresses detected" ∧
      containsText e.message r1.display_path ∧ containsText e.message n1 ∧
      containsText e.message r2.display_path ∧ containsText e.message n2 := by
  have hp1 : (key, s1) ∈ recordAssignPairs r1 := by
    unfold recordAssignPairs
    exact List.mem_flatMap.mpr ⟨(n1, v1), hm1, by simp [assignPairsOf, hc1]⟩
  have hp2 : (key, s2) ∈ recordAssignPairs r2 := by
    unfold recordAssignPairs
    exact List.mem_flatMap.mpr ⟨(n2, v2), hm2, by simp [assignPairsOf, hc2]⟩
  have hv1 : s1 ∈ valuesFor key (recordAssignPairs r1) := by
    unfold valuesFor
    exact List.mem_filterMap.mpr ⟨(key, s1), hp1, by simp⟩
  have hv2 : s2 ∈ valuesFor key (recordAssignPairs r2) := by
    unfold valuesFor
    exact List.mem_filterMap.mpr ⟨(key, s2), hp2, by simp⟩
  have hsplit : valuesFor key (s.devices.flatMap recordAssignPairs) =
      valuesFor key (pre.flatMap recordAssignPairs) ++
      (valuesFor key (recordAssignPairs r1) ++
        (valuesFor key (mid.flatMap recordAssignPairs) ++
          (valuesFor key (recordAssignPairs r2) ++
            valuesFor key (post.flatMap recordAssignPairs)))) := by
    rw [hdevs]
    simp [valuesFor, List.filterMap_append]
  have hv1' : s1 ∈ valuesFor key (s.devices.flatMap recordAssignPairs) := by
    rw [hsplit]
    exact List.mem_append_right _ (List.mem_append_left _ hv1)
  have hv2' : s2 ∈ valuesFor key (s.devices.flatMap recordAssignPairs) := by
    rw [hsplit]
    refine List.mem_append_right _ (List.mem_append_right _
      (List.mem_append_right _ (List.mem_append_left _ hv2)))
  have hlen : 1 < (valuesFor key (s.devices.flatMap recordAssignPairs)).length := by
    have l1 : 0 < (valuesFor key (recordAssignPairs r1)).length :=
      List.length_pos.mpr (List.ne_nil_of_mem hv1)
    have l2 : 0 < (valuesFor key (recordAssignPairs r2)).length :=
      List.length_pos.mpr (List.ne_nil_of_mem hv2)
    rw [hsplit]
    simp only [List.length_append]
    omega
  obtain ⟨issue, hissue_mem, hheader, hentries⟩ :=
    ensure_unique_contains_duplicates s.devices key hlen
  have hfi : s.finalIssues =
      s.issues ++ ensure_unique_ipv4_allocations { devices := s.devices } := by
    rw [finalIssues_eq, hfr]
    simp
  have hmemfi : issue ∈ s.finalIssues := by
    rw [hfi]
    exact List.mem_append_right _ hissue_mem
  have hne : s.finalIssues.isEmpty = false := by
    cases hl : s.finalIssues with
    | nil => rw [hl] at hmemfi; simp at hmemfi
    | cons a as => rfl
  have hfin : s.finalize = .error { issues := s.finalIssues } := by
    rw [finalize_eq, hne]
    simp
  have hmsg : containsText
      (RuleViolationError.message { issues := s.finalIssues }) issue := by
    unfold RuleViolationError.message
    exact containsText_joinWith hmemfi
  have hce1 : containsText issue s1 :=
    containsText_drop_left (hentries s1 hv1')
  have hce2 : containsText issue s2 :=
    containsText_drop_left (hentries s2 hv2')
  obtain ⟨t1, ht1⟩ := classify_assign_shape r1 n1 v1 key s1 hc1
  obtain ⟨t2, ht2⟩ := classify_assign_shape r2 n2 v2 key s2 hc2
  have hs1d : containsText s1 r1.display_path := by
    refine ⟨"", "::" ++ n1 ++ t1, ?_⟩
    rw [ht1]
    simp [String.append_assoc, String.empty_append]
  have hs1n : containsText s1 n1 := ⟨r1.display_path ++ "::", t1, ht1⟩
  have hs2d : containsText s2 r2.display_path := by
    refine ⟨"", "::" ++ n2 ++ t2, ?_⟩
    rw [ht2]
    simp [String.append_assoc, String.empty_append]
  have hs2n : containsText s2 n2 := ⟨r2.display_path ++ "::", t2, ht2⟩
  have hheader2 : containsText issue "Duplicate IPv4 addresses detected" := by
    have hsame : "Duplicate IPv4 addresses detected:" =
        "Duplicate IPv4 addresses detected" ++ ":" := rfl
    rw [hsame] at hheader
    exact containsText_drop_right hheader
  exact ⟨{ issues := s.finalIssues }, hfin,
    containsText_trans hmsg hheader2,
    containsText_trans (containsText_trans hmsg hce1) hs1d,
    containsText_trans (containsText_trans hmsg hce1) hs1n,
    containsText_trans (containsText_trans hmsg hce2) hs2d,
    containsText_trans (containsText_trans hmsg hce2) hs2n⟩

/-- First device of the duplicate-address scenario. -/
def c3Device1 : Device :=
  [("hostname", Value.str "wgw01.nyc01"),
   ("interfaces", Value.dict
     [("ge-0/0/0", Value.dict [("ipv4", Value.str "10.2.0.1/24")])])]

/-- Second device of the duplicate-address scenario. -/
def c3Device2 : Device :=
  [("hostname", Value.str "wgw02.nyc01"),
   ("interfaces", Value.dict
     [("ge-0/0/0", Value.dict [("ipv4", Value.str "10.2.0.1/24")])])]

/-- The session after applying both devices through the built-in rule set. -/
def c3Session : RuleEngineSession :=
  ((⟨[assign_site_domains, suppress_matches_for_wgw01],
      [ensure_unique_ipv4_allocations], [], []⟩ : RuleEngineSession).apply
    c3Device1 "nyc01" "tmp/data/nyc01/wgw01.json"
    (some "data/nyc01/wgw01.json")).apply
    c3Device2 "nyc01" "tmp/data/nyc01/wgw02.json"
    (some "data/nyc01/wgw02.json")

/-- The snapshot of the first device (mutated by the built-in device rule
that clears `matches` for wgw01.nyc01). -/
def c3Record1 : DeviceRecord :=
  { device := [("hostname", Value.str "wgw01.nyc01"),
      ("interfaces", Value.dict
        [("ge-0/0/0", Value.dict [("ipv4", Value.str "10.2.0.1/24")])]),
      ("matches", Value.list [])],
    site := "nyc01", source_path := "tmp/data/nyc01/wgw01.json",
    display_path := "data/nyc01/wgw01.json" }

/-- The snapshot of the second device (unchanged by the device rules). -/
def c3Record2 : DeviceRecord :=
  { device := c3Device2, site := "nyc01",
    source_path := "tmp/data/nyc01/wgw02.json",
    display_path := "data/nyc01/wgw02.json" }

/-- C3 witness: the two-device scenario of the repository's own test,
finalized with the built-in fleet rule. -/
theorem duplicate_ipv4_detected_witness :
    ∃ e, c3Session.finalize = .error e ∧
      containsText e.message "Duplicate IPv4 addresses detected" ∧
      containsText e.message "data/nyc01/wgw01.json" ∧
      containsText e.message "ge-0/0/0" ∧
      containsText e.message "data/nyc01/wgw02.json" ∧
      containsText e.message "ge-0/0/0" :=
  duplicate_ipv4_detected c3Session (by rfl) [] [] [] c3Record1 c3Record2
    (by rfl) "ge-0/0/0" "ge-0/0/0" "10.2.0.1"
    "data/nyc01/wgw01.json::ge-0/0/0 (wgw01.nyc01, 10.2.0.1/24)"
    "data/nyc01/wgw02.json::ge-0/0/0 (wgw02.nyc01, 10.2.0.1/24)"
    (Value.dict [("ipv4", Value.str "10.2.0.1/24")])
    (Value.dict [("ipv4", Value.str "10.2.0.1/24")])
    (List.Mem.head _) (by rfl) (List.Mem.head _) (by rfl)
